import Mathlib

/-!
Verification of the semantic-rs release pipeline (`src/main.rs`).

The decision engine and the pipeline orchestrator live in `main.rs`; the
collaborator modules (`git`, `changelog`, `cargo`, `github`, `toml_file`,
`config`, `commit_analyzer`) are external to the orchestrator logic and are
modelled as abstract outcomes supplied in a `World` record.  `main` itself is
embedded as the pure function `runMain`, which returns the process exit code,
the ordered list of mutating effects the run attempted, and the version /
changelog strings it reported.

Conventions:
  * Rust `process::exit(1)` (via the `print_exit!` macro or an explicit call)
    is exit code 1; a Rust panic (`expect` / `unwrap` failure) is exit
    code 101, the Rust runtime's panic exit status.
  * `repo.head()` and the version parse in `toml_file` are assumed to
    succeed when flagged so; their panic paths are modelled by the
    corresponding `World` flags.
-/

/-- `CommitType` from `commit_analyzer`, as matched in `version_bump`
(`main.rs` lines 87-97): the aggregate change category of a commit range. -/
inductive CommitType where
  | Unknown
  | Patch
  | Minor
  | Major
deriving DecidableEq, Repr

/-- A semantic version `(major, minor, patch)`, the triple the program reads
from `Cargo.toml` and bumps (the `semver::Version` numeric components). -/
structure Version where
  major : Nat
  minor : Nat
  patch : Nat
deriving DecidableEq, Repr

/-- `semver`'s `Version::increment_patch`: `patch += 1`. -/
def increment_patch (v : Version) : Version :=
  { v with patch := v.patch + 1 }

/-- `semver`'s `Version::increment_minor`: `minor += 1; patch = 0`. -/
def increment_minor (v : Version) : Version :=
  { major := v.major, minor := v.minor + 1, patch := 0 }

/-- `semver`'s `Version::increment_major`: `major += 1; minor = 0; patch = 0`. -/
def increment_major (v : Version) : Version :=
  { major := v.major + 1, minor := 0, patch := 0 }

/-- `version_bump` from `main.rs` lines 87-97: `Unknown` yields no new
version, otherwise the matching `semver` increment is applied to a clone of
the current version. -/
def version_bump (version : Version) (bump : CommitType) : Option Version :=
  match bump with
  | CommitType.Unknown => none
  | CommitType.Patch => some (increment_patch version)
  | CommitType.Minor => some (increment_minor version)
  | CommitType.Major => some (increment_major version)

/-- Rust's `str::to_lowercase`, modelled as a character-wise lowercasing of
the string (they agree on ASCII input, which covers every literal
`string_to_bool` recognizes). -/
def to_lowercase (s : String) : String :=
  String.mk (s.data.map Char.toLower)

/-- `string_to_bool` from `main.rs` lines 79-85: lowercase the answer and
match it against the recognized literals; anything else is `false`. -/
def string_to_bool (answer : String) : Bool :=
  match to_lowercase answer with
  | "yes" => true
  | "true" => true
  | "1" => true
  | "no" => false
  | "false" => false
  | "0" => false
  | _ => false

/-- The `is_dry_run` computation from `main.rs` lines 165-170: inside CI
(`CI` env var set) the run is never a dry run; otherwise it is a dry run
exactly when `--write` was not passed. -/
def is_dry_run (ciSet : Bool) (flagWrite : Bool) : Bool :=
  if ciSet then false else !flagWrite

/-- `is_release_branch` from `main.rs` lines 118-126.  `travisPullRequest`
models the `TRAVIS_PULL_REQUEST` environment variable (`none` when unset).
If it is set to anything but `"false"` the gate fails; otherwise the current
branch must equal the configured release branch. -/
def is_release_branch (travisPullRequest : Option String)
    (current release : String) : Bool :=
  match travisPullRequest with
  | some pr => if pr ≠ "false" then false else current == release
  | none => current == release

/-- `current_branch` from `main.rs` lines 103-116: prefer the
`TRAVIS_BRANCH` environment variable; otherwise the repository HEAD's
shorthand when HEAD is a branch (`headBranch` is `none` when it is not;
the panic when the repository has no HEAD at all is not modelled). -/
def current_branch (travisBranch headBranch : Option String) : Option String :=
  match travisBranch with
  | some b => some b
  | none => headBranch

/-- Rendering of a version as `"major.minor.patch"`
(`semver::Version::to_string` on a plain triple). -/
def version_to_string (v : Version) : String :=
  toString v.major ++ "." ++ toString v.minor ++ "." ++ toString v.patch

/-- The annotated tag name `v<new version>` (`main.rs` line 378). -/
def tag_name (nv : Version) : String :=
  "v" ++ version_to_string nv

/-- Outcome of `travis_after_all`'s `wait_for_others` (`main.rs` 272-278). -/
inductive WaitOutcome where
  | ok
  | failedBuilds
  | otherError
deriving DecidableEq, Repr

/-- One mutating step of the pipeline, recorded in the order the orchestrator
attempts it. -/
inductive Effect where
  | writeManifest (nv : Version)
  | writeChangelog (old nv : Version)
  | writeChangelogCustom (nv : Version) (text : String)
  | updateLockfile
  | packageCrate
  | commitFiles (nv : Version)
  | createTag (name message : String)
  | push (tagName : String)
  | githubRelease (tagName message : String)
  | publishCrate
deriving DecidableEq, Repr

/-- Observable result of one run of `main`: process exit code, the mutating
effects attempted in order, and the reported new-version / changelog text. -/
structure RunResult where
  exitCode : Nat
  effects : List Effect
  reportedNewVersion : Option String
  reportedChangelog : Option String
deriving DecidableEq, Repr

/-- The docopt-decoded CLI arguments (`main.rs` lines 70-77). -/
structure Args where
  flag_path : String
  flag_write : Bool
  flag_version : Bool
  flag_release : String
  flag_branch : String
deriving DecidableEq, Repr

/-- Environment and collaborator outcomes for one run.  Each `Ok` flag tells
whether the corresponding fallible collaborator call succeeds; `Option`
fields model environment variables / fallible queries. -/
structure World where
  /-- the `CI` environment variable is set (`ci_env_set`, lines 99-101) -/
  ciSet : Bool
  /-- `TRAVIS_BRANCH` environment variable -/
  travisBranch : Option String
  /-- `TRAVIS_PULL_REQUEST` environment variable -/
  travisPullRequest : Option String
  /-- `fs::canonicalize` succeeds and the path is valid unicode (181-185) -/
  pathOk : Bool
  /-- `git2::Repository::open` succeeds (187-193) -/
  repoOpenOk : Bool
  /-- `git::get_signature` succeeds (199-222) -/
  signatureOk : Bool
  /-- `repo.find_remote("origin")` succeeds (227-233) -/
  findRemoteOk : Bool
  /-- the remote URL is valid UTF-8 and parses (`expect`, panics otherwise) -/
  remoteUrlOk : Bool
  /-- `user_repo_from_url` succeeds (235-236) -/
  userRepoOk : Bool
  /-- `GH_TOKEN` environment variable (240-241) -/
  ghToken : Option String
  /-- `CARGO_TOKEN` environment variable (243-244) -/
  cargoToken : Option String
  /-- HEAD's branch shorthand, `none` when HEAD is not a branch (108-115) -/
  headBranch : Option String
  /-- `Build::from_env` succeeds (263-264) -/
  buildFromEnvOk : Bool
  /-- `build_run.is_leader()` (266) -/
  isLeader : Bool
  /-- result of `build_run.wait_for_others()` (272-278) -/
  waitOutcome : WaitOutcome
  /-- `toml_file::read_from_file` succeeds (281-282) -/
  tomlReadOk : Bool
  /-- `Version::parse` succeeds (`expect`, panics otherwise, 284) -/
  versionParseOk : Bool
  /-- the parsed current version from `Cargo.toml` (284) -/
  version : Version
  /-- `git::version_bump_since_latest`: aggregate category of the range (289) -/
  bump : CommitType
  /-- `changelog::has_commits` result, `none` on error (307, 341) -/
  hasCommits : Option Bool
  /-- `changelog::generate` result, `none` on error (317, 375) -/
  changelogGen : Option String
  /-- `toml_file::write_new_version` succeeds (336-337) -/
  manifestWriteOk : Bool
  /-- `changelog::write` succeeds (350-351) -/
  changelogWriteOk : Bool
  /-- `changelog::write_custom` succeeds (355-356) -/
  changelogWriteCustomOk : Bool
  /-- `cargo::update_lockfile` succeeds (361-363) -/
  lockfileOk : Bool
  /-- `cargo::package` succeeds (367-369) -/
  packageOk : Bool
  /-- `git::commit_files` succeeds (371-372) -/
  commitOk : Bool
  /-- `git::tag` succeeds (379-380) -/
  tagOk : Bool
  /-- `git::push` succeeds (384-385) -/
  pushOk : Bool
  /-- `github::release` succeeds (391-392) -/
  githubReleaseOk : Bool
  /-- `cargo::publish` succeeds (395-397) -/
  publishOk : Bool
deriving DecidableEq, Repr

/-- The release-mode tail of the write sequence (`main.rs` lines 382-400):
push, short fixed wait (no observable effect), GitHub release, crates.io
publish.  The `cargo_token` `unwrap` panics (exit 101) when the token is
absent, before the publish is attempted. -/
def writeRemote (w : World) (tagName msg nvs : String)
    (es : List Effect) : RunResult :=
  let es1 := es ++ [Effect.push tagName]
  if !w.pushOk then ⟨1, es1, some nvs, none⟩ else
  let es2 := es1 ++ [Effect.githubRelease tagName msg]
  if !w.githubReleaseOk then ⟨1, es2, some nvs, none⟩ else
  match w.cargoToken with
  | none => ⟨101, es2, some nvs, none⟩
  | some _ =>
    let es3 := es2 ++ [Effect.publishCrate]
    if !w.publishOk then ⟨1, es3, some nvs, none⟩ else
    ⟨0, es3, some nvs, none⟩

/-- Package build, commit, tag-message generation, tag, and the optional
remote tail (`main.rs` lines 366-401).  The tag message is the changelog
generated for the range; its generation failure aborts after the commit but
before the tag. -/
def writeTail (w : World) (rm : Bool) (nv : Version)
    (es : List Effect) : RunResult :=
  let nvs := version_to_string nv
  let es1 := es ++ [Effect.packageCrate]
  if !w.packageOk then ⟨1, es1, some nvs, none⟩ else
  let es2 := es1 ++ [Effect.commitFiles nv]
  if !w.commitOk then ⟨1, es2, some nvs, none⟩ else
  match w.changelogGen with
  | none => ⟨1, es2, some nvs, none⟩
  | some msg =>
    let es3 := es2 ++ [Effect.createTag (tag_name nv) msg]
    if !w.tagOk then ⟨1, es3, some nvs, none⟩ else
    if rm then writeRemote w (tag_name nv) msg nvs es3
    else ⟨0, es3, some nvs, none⟩

/-- The lockfile refresh, run only in release mode (`main.rs` lines 359-364),
followed by the rest of the write sequence. -/
def writeMid (w : World) (rm : Bool) (nv : Version)
    (es : List Effect) : RunResult :=
  let nvs := version_to_string nv
  if rm then
    let es1 := es ++ [Effect.updateLockfile]
    if !w.lockfileOk then ⟨1, es1, some nvs, none⟩ else
    writeTail w rm nv es1
  else writeTail w rm nv es

/-- The write branch of `main` (`main.rs` lines 333-401): report the new
version, persist it to `Cargo.toml`, write the changelog (the fixed
"Stable version" text when the range has no qualifying commits), then the
rest of the sequence. -/
def writeSeq (w : World) (rm : Bool) (v nv : Version) : RunResult :=
  let nvs := version_to_string nv
  let es1 := [Effect.writeManifest nv]
  if !w.manifestWriteOk then ⟨1, es1, some nvs, none⟩ else
  match w.hasCommits with
  | none => ⟨1, es1, some nvs, none⟩
  | some true =>
    let es2 := es1 ++ [Effect.writeChangelog v nv]
    if !w.changelogWriteOk then ⟨1, es2, some nvs, none⟩ else
    writeMid w rm nv es2
  | some false =>
    let es2 := es1 ++ [Effect.writeChangelogCustom nv "Stable version"]
    if !w.changelogWriteCustomOk then ⟨1, es2, some nvs, none⟩ else
    writeMid w rm nv es2

/-- The dry-run branch of `main` (`main.rs` lines 304-332): report the
would-be new version and, when the range has qualifying commits, the
generated changelog; nothing is mutated. -/
def dryReport (w : World) (nv : Version) : RunResult :=
  let nvs := version_to_string nv
  match w.hasCommits with
  | none => ⟨1, [], some nvs, none⟩
  | some true =>
    match w.changelogGen with
    | none => ⟨1, [], some nvs, none⟩
    | some log => ⟨0, [], some nvs, some log⟩
  | some false => ⟨0, [], some nvs, none⟩

/-- The version-decision stage of `main` (`main.rs` lines 281-302): read and
parse the current version, aggregate the commit range, and either stop
(exit 0, `Unknown` bump) or continue into the dry-run or write branch. -/
def versionStage (w : World) (isDry rm : Bool) : RunResult :=
  if !w.tomlReadOk then ⟨1, [], none, none⟩ else
  if !w.versionParseOk then ⟨101, [], none, none⟩ else
  match version_bump w.version w.bump with
  | none => ⟨0, [], none, none⟩
  | some nv => if isDry then dryReport w nv else writeSeq w rm w.version nv

/-- Branch gate and CI barrier (`main.rs` lines 253-279), then the version
stage.  A branch mismatch or pull-request context exits 0; in CI, a
non-leader exits 0, a failed sibling build or barrier error exits 1. -/
def afterConfig (a : Args) (w : World) (isDry rm : Bool) : RunResult :=
  match current_branch w.travisBranch w.headBranch with
  | none => ⟨1, [], none, none⟩
  | some branch =>
    if !is_release_branch w.travisPullRequest branch a.flag_branch then
      ⟨0, [], none, none⟩
    else if w.ciSet then
      if !w.buildFromEnvOk then ⟨1, [], none, none⟩ else
      if !w.isLeader then ⟨0, [], none, none⟩ else
      match w.waitOutcome with
      | WaitOutcome.ok => versionStage w isDry rm
      | WaitOutcome.failedBuilds => ⟨1, [], none, none⟩
      | WaitOutcome.otherError => ⟨1, [], none, none⟩
    else versionStage w isDry rm

/-- `main` (`main.rs` lines 151-402) as a pure function of the CLI arguments
and the world of collaborator outcomes: `--version` short-circuits, the
configuration is assembled (with the remote credentials demanded only in
write-and-release mode), and the pipeline proper follows. -/
def runMain (a : Args) (w : World) : RunResult :=
  if a.flag_version then ⟨0, [], none, none⟩ else
  let isDry := is_dry_run w.ciSet a.flag_write
  let rm := string_to_bool a.flag_release
  if !w.pathOk then ⟨1, [], none, none⟩ else
  if !w.repoOpenOk then ⟨1, [], none, none⟩ else
  if !w.signatureOk then ⟨1, [], none, none⟩ else
  if !isDry && rm then
    if !w.findRemoteOk then ⟨1, [], none, none⟩ else
    if !w.remoteUrlOk then ⟨101, [], none, none⟩ else
    if !w.userRepoOk then ⟨1, [], none, none⟩ else
    match w.ghToken with
    | none => ⟨1, [], none, none⟩
    | some _ =>
      match w.cargoToken with
      | none => ⟨1, [], none, none⟩
      | some _ => afterConfig a w isDry rm
  else afterConfig a w isDry rm

/-- The configuration stage (`main.rs` lines 151-251) succeeds: no
`--version` short-circuit, path/repository/signature resolution succeed,
and — in write-and-release mode — the remote URL and both credentials are
available. -/
def configOk (a : Args) (w : World) : Bool :=
  !a.flag_version && w.pathOk && w.repoOpenOk && w.signatureOk &&
    (!(!(is_dry_run w.ciSet a.flag_write) && string_to_bool a.flag_release) ||
      (w.findRemoteOk && w.remoteUrlOk && w.userRepoOk &&
        w.ghToken.isSome && w.cargoToken.isSome))

/-- The branch gate (`main.rs` lines 253-260) lets the run through: the
current branch can be determined and `is_release_branch` holds. -/
def branchOk (a : Args) (w : World) : Bool :=
  match current_branch w.travisBranch w.headBranch with
  | none => false
  | some b => is_release_branch w.travisPullRequest b a.flag_branch

/-- The CI barrier (`main.rs` lines 262-279) lets the run through: either
not in CI at all, or the build leader with every sibling succeeded. -/
def barrierOk (w : World) : Bool :=
  !w.ciSet ||
    (w.buildFromEnvOk && w.isLeader &&
      (match w.waitOutcome with
       | WaitOutcome.ok => true
       | WaitOutcome.failedBuilds => false
       | WaitOutcome.otherError => false))

/-- The run reaches the version decision (`main.rs` line 296): every gate
before it passes and the current version can be read and parsed. -/
def gateOk (a : Args) (w : World) : Bool :=
  configOk a w && branchOk a w && barrierOk w && w.tomlReadOk && w.versionParseOk

/-- The remote steps of the write sequence, attempted only in release mode
(`main.rs` lines 382-400), in order. -/
def remoteSteps (tagName msg : String) : List Effect :=
  [Effect.push tagName, Effect.githubRelease tagName msg, Effect.publishCrate]

/-- The steps from the package build onwards (`main.rs` lines 366-400), in
order. -/
def tailSteps (w : World) (rm : Bool) (nv : Version) : List Effect :=
  Effect.packageCrate :: Effect.commitFiles nv ::
    Effect.createTag (tag_name nv) (w.changelogGen.getD "") ::
      (if rm then remoteSteps (tag_name nv) (w.changelogGen.getD "") else [])

/-- The steps from the (release-mode-only) lockfile refresh onwards
(`main.rs` lines 359-400), in order. -/
def midSteps (w : World) (rm : Bool) (nv : Version) : List Effect :=
  (if rm then [Effect.updateLockfile] else []) ++ tailSteps w rm nv

/-- The canonical ordered list of write-sequence steps for a run, as laid
out in `main.rs` lines 333-401: manifest write, changelog write (the custom
"Stable version" entry when the range has no qualifying commits), lock
refresh (release mode only), package build, commit, tag, then — in release
mode — push, GitHub release and crates.io publish. -/
def stepsFor (w : World) (rm : Bool) (v nv : Version) : List Effect :=
  Effect.writeManifest nv ::
    (if w.hasCommits.getD true then Effect.writeChangelog v nv
     else Effect.writeChangelogCustom nv "Stable version") :: midSteps w rm nv

theorem runMain_eq_afterConfig (a : Args) (w : World) (h : configOk a w = true) :
    runMain a w =
      afterConfig a w (is_dry_run w.ciSet a.flag_write) (string_to_bool a.flag_release) := by
  unfold configOk at h
  simp only [Bool.and_eq_true, Bool.not_eq_true'] at h
  obtain ⟨⟨⟨⟨hv, hp⟩, hr⟩, hs⟩, hc⟩ := h
  unfold runMain
  by_cases hdr : (!is_dry_run w.ciSet a.flag_write && string_to_bool a.flag_release) = true
  · rw [Bool.or_eq_true, hdr] at hc
    simp only [Bool.not_true, Bool.false_eq_true, false_or, Bool.and_eq_true,
      Option.isSome_iff_exists] at hc
    obtain ⟨⟨⟨⟨hfr, hru⟩, hur⟩, t1, ht1⟩, t2, ht2⟩ := hc
    simp [hv, hp, hr, hs, hdr, hfr, hru, hur, ht1, ht2]
  · simp only [Bool.not_eq_true] at hdr
    simp [hv, hp, hr, hs, hdr]

theorem afterConfig_eq_versionStage (a : Args) (w : World) (d r : Bool)
    (hb : branchOk a w = true) (hbar : barrierOk w = true) :
    afterConfig a w d r = versionStage w d r := by
  unfold branchOk at hb
  unfold afterConfig
  cases hcb : current_branch w.travisBranch w.headBranch with
  | none => simp [hcb] at hb
  | some b =>
    rw [hcb] at hb
    simp only at hb
    simp only [hb, Bool.not_true, Bool.false_eq_true, if_false]
    cases hci : w.ciSet with
    | false => simp
    | true =>
      unfold barrierOk at hbar
      rw [hci] at hbar
      simp only [Bool.not_true, Bool.false_or, Bool.and_eq_true] at hbar
      obtain ⟨⟨hbe, hl⟩, hwo⟩ := hbar
      cases hw : w.waitOutcome with
      | ok => simp [hbe, hl]
      | failedBuilds => rw [hw] at hwo; exact absurd hwo (by simp)
      | otherError => rw [hw] at hwo; exact absurd hwo (by simp)

theorem runMain_eq_versionStage (a : Args) (w : World) (h : gateOk a w = true) :
    runMain a w =
      versionStage w (is_dry_run w.ciSet a.flag_write) (string_to_bool a.flag_release) := by
  unfold gateOk at h
  simp only [Bool.and_eq_true] at h
  obtain ⟨⟨⟨⟨hc, hb⟩, hbar⟩, _⟩, _⟩ := h
  rw [runMain_eq_afterConfig a w hc]
  exact afterConfig_eq_versionStage a w _ _ hb hbar

theorem versionStage_some (w : World) (d r : Bool) (nv : Version)
    (ht : w.tomlReadOk = true) (hp : w.versionParseOk = true)
    (hb : version_bump w.version w.bump = some nv) :
    versionStage w d r = if d then dryReport w nv else writeSeq w r w.version nv := by
  unfold versionStage
  rw [ht, hp, hb]
  simp

theorem versionStage_none (w : World) (d r : Bool)
    (ht : w.tomlReadOk = true) (hp : w.versionParseOk = true)
    (hb : version_bump w.version w.bump = none) :
    versionStage w d r = ⟨0, [], none, none⟩ := by
  unfold versionStage
  rw [ht, hp, hb]
  simp

theorem writeRemote_effects (w : World) (tagName msg nvs : String)
    (es : List Effect) :
    ∃ t, (writeRemote w tagName msg nvs es).effects = es ++ t ∧
      t <+: remoteSteps tagName msg := by
  unfold writeRemote remoteSteps
  cases hp : w.pushOk with
  | false =>
    exact ⟨[Effect.push tagName], by simp,
      ⟨[Effect.githubRelease tagName msg, Effect.publishCrate], rfl⟩⟩
  | true =>
    cases hg : w.githubReleaseOk with
    | false =>
      exact ⟨[Effect.push tagName, Effect.githubRelease tagName msg], by simp,
        ⟨[Effect.publishCrate], rfl⟩⟩
    | true =>
      cases hct : w.cargoToken with
      | none =>
        exact ⟨[Effect.push tagName, Effect.githubRelease tagName msg], by simp,
          ⟨[Effect.publishCrate], rfl⟩⟩
      | some ct =>
        cases hpub : w.publishOk with
        | false =>
          exact ⟨[Effect.push tagName, Effect.githubRelease tagName msg,
            Effect.publishCrate], by simp, List.prefix_rfl⟩
        | true =>
          exact ⟨[Effect.push tagName, Effect.githubRelease tagName msg,
            Effect.publishCrate], by simp, List.prefix_rfl⟩

theorem writeTail_effects (w : World) (rm : Bool) (nv : Version)
    (es : List Effect) :
    ∃ t, (writeTail w rm nv es).effects = es ++ t ∧
      t <+: tailSteps w rm nv := by
  unfold writeTail tailSteps
  cases hp : w.packageOk with
  | false =>
    exact ⟨[Effect.packageCrate], by simp, ⟨_, rfl⟩⟩
  | true =>
    cases hc : w.commitOk with
    | false =>
      exact ⟨[Effect.packageCrate, Effect.commitFiles nv], by simp, ⟨_, rfl⟩⟩
    | true =>
      cases hg : w.changelogGen with
      | none =>
        exact ⟨[Effect.packageCrate, Effect.commitFiles nv], by simp, ⟨_, rfl⟩⟩
      | some msg =>
        cases ht : w.tagOk with
        | false =>
          exact ⟨[Effect.packageCrate, Effect.commitFiles nv,
            Effect.createTag (tag_name nv) msg], by simp,
            ⟨(if rm then remoteSteps (tag_name nv) msg else []), by simp⟩⟩
        | true =>
          cases hrm : rm with
          | false =>
            exact ⟨[Effect.packageCrate, Effect.commitFiles nv,
              Effect.createTag (tag_name nv) msg], by simp, by simp⟩
          | true =>
            obtain ⟨t, htl, hpre⟩ :=
              writeRemote_effects w (tag_name nv) msg (version_to_string nv)
                (es ++ [Effect.packageCrate, Effect.commitFiles nv,
                  Effect.createTag (tag_name nv) msg])
            refine ⟨[Effect.packageCrate, Effect.commitFiles nv,
              Effect.createTag (tag_name nv) msg] ++ t, ?_, ?_⟩
            · simpa [List.append_assoc] using htl
            · obtain ⟨s, hs⟩ := hpre
              exact ⟨s, by simp [← hs]⟩

theorem writeMid_effects (w : World) (rm : Bool) (nv : Version)
    (es : List Effect) :
    ∃ t, (writeMid w rm nv es).effects = es ++ t ∧
      t <+: midSteps w rm nv := by
  unfold writeMid midSteps
  cases hrm : rm with
  | false =>
    simpa using writeTail_effects w false nv es
  | true =>
    cases hl : w.lockfileOk with
    | false =>
      exact ⟨[Effect.updateLockfile], by simp, ⟨_, rfl⟩⟩
    | true =>
      obtain ⟨t, htl, hpre⟩ := writeTail_effects w true nv (es ++ [Effect.updateLockfile])
      refine ⟨Effect.updateLockfile :: t, ?_, ?_⟩
      · simpa using htl
      · obtain ⟨s, hs⟩ := hpre
        exact ⟨s, by simp [hs]⟩

theorem writeSeq_effects_ordered (w : World) (rm : Bool) (v nv : Version) :
    (writeSeq w rm v nv).effects <+: stepsFor w rm v nv := by
  cases hm : w.manifestWriteOk with
  | false =>
    simp only [writeSeq, stepsFor, hm, Bool.not_false, if_true]
    exact ⟨_ :: midSteps w rm nv, rfl⟩
  | true =>
    cases hc : w.hasCommits with
    | none =>
      simp only [writeSeq, stepsFor, hm, hc, Bool.not_true, Bool.false_eq_true, if_false]
      exact ⟨_ :: midSteps w rm nv, rfl⟩
    | some hcv =>
      cases hcv with
      | true =>
        cases hcw : w.changelogWriteOk with
        | false =>
          simp [writeSeq, stepsFor, hm, hc, hcw]
        | true =>
          simp only [writeSeq, stepsFor, hm, hc, hcw]
          obtain ⟨t, htl, s, hs⟩ :=
            writeMid_effects w rm nv [Effect.writeManifest nv, Effect.writeChangelog v nv]
          exact ⟨s, by simp [htl, ← hs]⟩
      | false =>
        cases hcw : w.changelogWriteCustomOk with
        | false =>
          simp [writeSeq, stepsFor, hm, hc, hcw]
        | true =>
          simp only [writeSeq, stepsFor, hm, hc, hcw]
          obtain ⟨t, htl, s, hs⟩ :=
            writeMid_effects w rm nv
              [Effect.writeManifest nv, Effect.writeChangelogCustom nv "Stable version"]
          exact ⟨s, by simp [htl, ← hs]⟩

theorem stepsFor_nodup (w : World) (rm : Bool) (v nv : Version) :
    (stepsFor w rm v nv).Nodup := by
  cases hcv : w.hasCommits.getD true <;> cases hrm : rm <;>
    simp [stepsFor, midSteps, tailSteps, remoteSteps, hcv, hrm]

theorem writeSeq_success (w : World) (rm : Bool) (v nv : Version) (hcv : Bool)
    (m ct : String)
    (h1 : w.manifestWriteOk = true) (h2 : w.hasCommits = some hcv)
    (h3 : w.changelogWriteOk = true) (h4 : w.changelogWriteCustomOk = true)
    (h5 : w.lockfileOk = true) (h6 : w.packageOk = true) (h7 : w.commitOk = true)
    (h8 : w.changelogGen = some m) (h9 : w.tagOk = true) (h10 : w.pushOk = true)
    (h11 : w.githubReleaseOk = true) (h12 : w.cargoToken = some ct)
    (h13 : w.publishOk = true) :
    writeSeq w rm v nv = ⟨0, stepsFor w rm v nv, some (version_to_string nv), none⟩ := by
  cases hcv <;> cases rm <;>
    simp [writeSeq, writeMid, writeTail, writeRemote, stepsFor, midSteps, tailSteps,
      remoteSteps, h1, h2, h3, h4, h5, h6, h7, h8, h9, h10, h11, h12, h13]

theorem writeSeq_success_norelease (w : World) (v nv : Version) (hcv : Bool)
    (m : String)
    (h1 : w.manifestWriteOk = true) (h2 : w.hasCommits = some hcv)
    (h3 : w.changelogWriteOk = true) (h4 : w.changelogWriteCustomOk = true)
    (h6 : w.packageOk = true) (h7 : w.commitOk = true)
    (h8 : w.changelogGen = some m) (h9 : w.tagOk = true) :
    writeSeq w false v nv = ⟨0, stepsFor w false v nv, some (version_to_string nv), none⟩ := by
  cases hcv <;>
    simp [writeSeq, writeMid, writeTail, writeRemote, stepsFor, midSteps, tailSteps,
      remoteSteps, h1, h2, h3, h4, h6, h7, h8, h9]

theorem writeSeq_head (w : World) (rm : Bool) (v nv : Version) :
    ∃ t, (writeSeq w rm v nv).effects = Effect.writeManifest nv :: t := by
  cases hm : w.manifestWriteOk with
  | false => exact ⟨[], by simp [writeSeq, hm]⟩
  | true =>
    cases hc : w.hasCommits with
    | none => exact ⟨[], by simp [writeSeq, hm, hc]⟩
    | some hcv =>
      cases hcv with
      | true =>
        cases hcw : w.changelogWriteOk with
        | false =>
          exact ⟨[Effect.writeChangelog v nv], by simp [writeSeq, hm, hc, hcw]⟩
        | true =>
          obtain ⟨t, htl, _⟩ :=
            writeMid_effects w rm nv [Effect.writeManifest nv, Effect.writeChangelog v nv]
          exact ⟨Effect.writeChangelog v nv :: t, by simp [writeSeq, hm, hc, hcw, htl]⟩
      | false =>
        cases hcw : w.changelogWriteCustomOk with
        | false =>
          exact ⟨[Effect.writeChangelogCustom nv "Stable version"],
            by simp [writeSeq, hm, hc, hcw]⟩
        | true =>
          obtain ⟨t, htl, _⟩ :=
            writeMid_effects w rm nv
              [Effect.writeManifest nv, Effect.writeChangelogCustom nv "Stable version"]
          exact ⟨Effect.writeChangelogCustom nv "Stable version" :: t,
            by simp [writeSeq, hm, hc, hcw, htl]⟩

theorem dryReport_effects (w : World) (nv : Version) :
    (dryReport w nv).effects = [] := by
  unfold dryReport
  cases hc : w.hasCommits with
  | none => rfl
  | some hcv =>
    cases hcv with
    | true =>
      cases hg : w.changelogGen with
      | none => rfl
      | some l => rfl
    | false => rfl

theorem dryReport_reported (w : World) (nv : Version) :
    (dryReport w nv).reportedNewVersion = some (version_to_string nv) := by
  unfold dryReport
  cases hc : w.hasCommits with
  | none => rfl
  | some hcv =>
    cases hcv with
    | true =>
      cases hg : w.changelogGen with
      | none => rfl
      | some l => rfl
    | false => rfl

theorem dryReport_changelog (w : World) (nv : Version) (log : String)
    (h1 : w.hasCommits = some true) (h2 : w.changelogGen = some log) :
    (dryReport w nv).reportedChangelog = some log := by
  unfold dryReport
  rw [h1, h2]

theorem versionStage_dry_effects (w : World) (rm : Bool) :
    (versionStage w true rm).effects = [] := by
  unfold versionStage
  cases ht : w.tomlReadOk with
  | false => rfl
  | true =>
    cases hp : w.versionParseOk with
    | false => rfl
    | true =>
      cases hb : version_bump w.version w.bump with
      | none => rfl
      | some nv => simp [dryReport_effects]

theorem afterConfig_dry_effects (a : Args) (w : World) (rm : Bool) :
    (afterConfig a w true rm).effects = [] := by
  unfold afterConfig
  cases hcb : current_branch w.travisBranch w.headBranch with
  | none => rfl
  | some b =>
    cases hrel : is_release_branch w.travisPullRequest b a.flag_branch with
    | false => simp [hrel]
    | true =>
      cases hci : w.ciSet with
      | false => simp [hrel, versionStage_dry_effects]
      | true =>
        cases w.buildFromEnvOk with
        | false => simp [hrel]
        | true =>
          cases w.isLeader with
          | false => simp [hrel]
          | true =>
            cases w.waitOutcome <;> simp [hrel, versionStage_dry_effects]

theorem runMain_dry_effects (a : Args) (w : World) (hci : w.ciSet = false)
    (hw : a.flag_write = false) : (runMain a w).effects = [] := by
  have hd : is_dry_run w.ciSet a.flag_write = true := by rw [hci, hw]; rfl
  simp only [runMain, hd, Bool.not_true, Bool.false_and, Bool.false_eq_true, if_false]
  split
  · rfl
  split
  · rfl
  split
  · rfl
  split
  · rfl
  exact afterConfig_dry_effects a w _

theorem gateOk_split (a : Args) (w : World) (h : gateOk a w = true) :
    configOk a w = true ∧ branchOk a w = true ∧ barrierOk w = true ∧
    w.tomlReadOk = true ∧ w.versionParseOk = true := by
  simp only [gateOk, Bool.and_eq_true] at h
  exact ⟨h.1.1.1.1, h.1.1.1.2, h.1.1.2, h.1.2, h.2⟩

theorem runMain_write (a : Args) (w : World) (nv : Version)
    (hg : gateOk a w = true) (hdry : is_dry_run w.ciSet a.flag_write = false)
    (hb : version_bump w.version w.bump = some nv) :
    runMain a w = writeSeq w (string_to_bool a.flag_release) w.version nv := by
  obtain ⟨hc, hbr, hbar, ht, hpv⟩ := gateOk_split a w hg
  rw [runMain_eq_versionStage a w hg, versionStage_some w _ _ nv ht hpv hb, hdry]
  simp

theorem runMain_dry (a : Args) (w : World) (nv : Version)
    (hg : gateOk a w = true) (hdry : is_dry_run w.ciSet a.flag_write = true)
    (hb : version_bump w.version w.bump = some nv) :
    runMain a w = dryReport w nv := by
  obtain ⟨hc, hbr, hbar, ht, hpv⟩ := gateOk_split a w hg
  rw [runMain_eq_versionStage a w hg, versionStage_some w _ _ nv ht hpv hb, hdry]
  simp

theorem writeChangelog_not_mem_midSteps (w : World) (rm : Bool)
    (nv v0 nv0 : Version) :
    Effect.writeChangelog v0 nv0 ∉ midSteps w rm nv := by
  cases rm <;> simp [midSteps, tailSteps, remoteSteps]

/-- A fully healthy world: every collaborator call succeeds, the current
branch is the release branch, no CI, current version 1.2.3, aggregate
category `Minor`. -/
def wAll : World :=
  { ciSet := false, travisBranch := some "master", travisPullRequest := none,
    pathOk := true, repoOpenOk := true, signatureOk := true,
    findRemoteOk := true, remoteUrlOk := true, userRepoOk := true,
    ghToken := some "gh", cargoToken := some "ct",
    headBranch := none,
    buildFromEnvOk := true, isLeader := true, waitOutcome := WaitOutcome.ok,
    tomlReadOk := true, versionParseOk := true,
    version := ⟨1, 2, 3⟩, bump := CommitType.Minor,
    hasCommits := some true, changelogGen := some "changelog",
    manifestWriteOk := true, changelogWriteOk := true, changelogWriteCustomOk := true,
    lockfileOk := true, packageOk := true, commitOk := true, tagOk := true,
    pushOk := true, githubReleaseOk := true, publishOk := true }

/-- CLI arguments for a dry run: no `--write`, `--release=no`. -/
def argsDry : Args :=
  { flag_path := ".", flag_write := false, flag_version := false,
    flag_release := "no", flag_branch := "master" }

/-- CLI arguments for write mode without release mode. -/
def argsWriteNo : Args :=
  { flag_path := ".", flag_write := true, flag_version := false,
    flag_release := "no", flag_branch := "master" }

/-- CLI arguments for write mode with release mode. -/
def argsWriteYes : Args :=
  { flag_path := ".", flag_write := true, flag_version := false,
    flag_release := "yes", flag_branch := "master" }

/-- Claim C1: for every current version and every change category other
than `Unknown`, `version_bump` returns exactly the spec's arithmetic:
`Patch` yields `(major, minor, patch+1)`, `Minor` yields
`(major, minor+1, 0)`, `Major` yields `(major+1, 0, 0)`; no other component
is changed. -/
theorem c1_version_bump_arithmetic (v : Version) :
    version_bump v CommitType.Patch = some ⟨v.major, v.minor, v.patch + 1⟩ ∧
    version_bump v CommitType.Minor = some ⟨v.major, v.minor + 1, 0⟩ ∧
    version_bump v CommitType.Major = some ⟨v.major + 1, 0, 0⟩ :=
  ⟨rfl, rfl, rfl⟩

/-- Claim C2: when the aggregate change category of the commit range is
`Unknown` (`None`), `version_bump` yields no new version, and any run that
reaches the version decision terminates with exit status 0 having attempted
no mutating effect at all: manifest and changelog untouched, no commit, tag
or remote operation. -/
theorem c2_no_bump_no_mutation (a : Args) (w : World)
    (hg : gateOk a w = true) (hb : w.bump = CommitType.Unknown) :
    version_bump w.version w.bump = none ∧
    (runMain a w).exitCode = 0 ∧ (runMain a w).effects = [] := by
  obtain ⟨hc, hbr, hbar, ht, hpv⟩ := gateOk_split a w hg
  have h0 : version_bump w.version w.bump = none := by rw [hb]; rfl
  rw [runMain_eq_versionStage a w hg, versionStage_none w _ _ ht hpv h0]
  exact ⟨h0, rfl, rfl⟩

/-- Witness for C2 at a concrete healthy world whose commit range
aggregates to `Unknown`. -/
theorem c2_witness :
    version_bump ({ wAll with bump := CommitType.Unknown } : World).version
        ({ wAll with bump := CommitType.Unknown } : World).bump = none ∧
    (runMain argsDry { wAll with bump := CommitType.Unknown }).exitCode = 0 ∧
    (runMain argsDry { wAll with bump := CommitType.Unknown }).effects = [] :=
  c2_no_bump_no_mutation argsDry { wAll with bump := CommitType.Unknown }
    (by decide) (by decide)

/-- Claim C3: a dry run (outside CI, without `--write`) performs no mutating
step whatsoever, yet — when the run reaches the decision and a bump exists —
it still reports the computed new version, and additionally the generated
changelog text when qualifying commits exist. -/
theorem c3_dry_run_no_mutation (a : Args) (w : World)
    (hci : w.ciSet = false) (hw : a.flag_write = false) :
    (runMain a w).effects = [] ∧
    (∀ nv, gateOk a w = true → version_bump w.version w.bump = some nv →
      (runMain a w).reportedNewVersion = some (version_to_string nv) ∧
      (∀ log, w.hasCommits = some true → w.changelogGen = some log →
        (runMain a w).reportedChangelog = some log)) := by
  refine ⟨runMain_dry_effects a w hci hw, ?_⟩
  intro nv hg hb
  have hd : is_dry_run w.ciSet a.flag_write = true := by rw [hci, hw]; rfl
  rw [runMain_dry a w nv hg hd hb]
  exact ⟨dryReport_reported w nv, fun log h1 h2 => dryReport_changelog w nv log h1 h2⟩

/-- Witness for C3 at a concrete healthy dry-run world: no effects, the new
version 1.3.0 and the changelog are reported. -/
theorem c3_witness :
    (runMain argsDry wAll).effects = [] ∧
    (runMain argsDry wAll).reportedNewVersion = some (version_to_string ⟨1, 3, 0⟩) ∧
    (runMain argsDry wAll).reportedChangelog = some "changelog" := by
  have h := c3_dry_run_no_mutation argsDry wAll (by decide) (by decide)
  have h2 := h.2 ⟨1, 3, 0⟩ (by decide) (by decide)
  exact ⟨h.1, h2.1, h2.2 "changelog" (by decide) (by decide)⟩

/-- Claim C10: `string_to_bool` returns `true` exactly when the lowercased
value is `"yes"`, `"true"` or `"1"`; every other value — misspellings and
the empty string included — yields `false`. -/
theorem c10_string_to_bool_iff (s : String) :
    string_to_bool s = true ↔
      (to_lowercase s = "yes" ∨ to_lowercase s = "true" ∨ to_lowercase s = "1") := by
  unfold string_to_bool
  split <;> simp_all

/-- Claim C4: in write mode with release mode off, the remote steps (push,
GitHub release, crates.io publish) and the lockfile refresh are all skipped,
while the local steps — manifest write, changelog write, package build,
commit, tag — still execute, and the run succeeds. -/
theorem c4_write_without_release (a : Args) (w : World) (nv : Version)
    (hcv : Bool) (m : String)
    (hg : gateOk a w = true)
    (hdry : is_dry_run w.ciSet a.flag_write = false)
    (hrm : string_to_bool a.flag_release = false)
    (hb : version_bump w.version w.bump = some nv)
    (h1 : w.manifestWriteOk = true) (h2 : w.hasCommits = some hcv)
    (h3 : w.changelogWriteOk = true) (h4 : w.changelogWriteCustomOk = true)
    (h6 : w.packageOk = true) (h7 : w.commitOk = true)
    (h8 : w.changelogGen = some m) (h9 : w.tagOk = true) :
    (runMain a w).exitCode = 0 ∧
    (runMain a w).effects =
      Effect.writeManifest nv ::
        (if hcv then Effect.writeChangelog w.version nv
         else Effect.writeChangelogCustom nv "Stable version") ::
          [Effect.packageCrate, Effect.commitFiles nv,
           Effect.createTag (tag_name nv) m] := by
  rw [runMain_write a w nv hg hdry hb, hrm,
    writeSeq_success_norelease w w.version nv hcv m h1 h2 h3 h4 h6 h7 h8 h9]
  refine ⟨rfl, ?_⟩
  cases hcv <;> simp [stepsFor, midSteps, tailSteps, h2, h8]

/-- Witness for C4: a healthy world, write mode, `--release=no`; the run
succeeds with exactly the five local steps. -/
theorem c4_witness :
    (runMain argsWriteNo wAll).exitCode = 0 ∧
    (runMain argsWriteNo wAll).effects =
      Effect.writeManifest ⟨1, 3, 0⟩ ::
        (if true then Effect.writeChangelog wAll.version ⟨1, 3, 0⟩
         else Effect.writeChangelogCustom ⟨1, 3, 0⟩ "Stable version") ::
          [Effect.packageCrate, Effect.commitFiles ⟨1, 3, 0⟩,
           Effect.createTag (tag_name ⟨1, 3, 0⟩) "changelog"] :=
  c4_write_without_release argsWriteNo wAll ⟨1, 3, 0⟩ true "changelog"
    (by decide) (by decide) (by decide) (by decide)
    rfl rfl rfl rfl rfl rfl rfl rfl

theorem writeSeq_custom_shape (w : World) (rm : Bool) (v nv : Version)
    (h1 : w.manifestWriteOk = true) (h2 : w.hasCommits = some false) :
    ∃ t, (writeSeq w rm v nv).effects =
      Effect.writeManifest nv :: Effect.writeChangelogCustom nv "Stable version" :: t ∧
      t <+: midSteps w rm nv := by
  cases hcw : w.changelogWriteCustomOk with
  | false =>
    exact ⟨[], by simp [writeSeq, h1, h2, hcw], ⟨midSteps w rm nv, by simp⟩⟩
  | true =>
    obtain ⟨t, htl, hpre⟩ :=
      writeMid_effects w rm nv
        [Effect.writeManifest nv, Effect.writeChangelogCustom nv "Stable version"]
    exact ⟨t, by simp [writeSeq, h1, h2, hcw, htl], hpre⟩

/-- Claim C8: in write mode, when the commit range yields no qualifying
changelog content, the pipeline does not derive the changelog entry from
commits: right after the manifest write it writes the custom entry for the
new version with the fixed fallback text "Stable version", and no
commit-derived changelog write occurs anywhere in the run. -/
theorem c8_stable_version_fallback (a : Args) (w : World) (nv : Version)
    (hg : gateOk a w = true)
    (hdry : is_dry_run w.ciSet a.flag_write = false)
    (hb : version_bump w.version w.bump = some nv)
    (h1 : w.manifestWriteOk = true) (h2 : w.hasCommits = some false) :
    (runMain a w).effects.take 2 =
      [Effect.writeManifest nv, Effect.writeChangelogCustom nv "Stable version"] ∧
    Effect.writeChangelog w.version nv ∉ (runMain a w).effects := by
  rw [runMain_write a w nv hg hdry hb]
  obtain ⟨t, heff, hpre⟩ :=
    writeSeq_custom_shape w (string_to_bool a.flag_release) w.version nv h1 h2
  rw [heff]
  constructor
  · rfl
  · intro hmem
    simp only [List.mem_cons] at hmem
    rcases hmem with h | h | h
    · simp at h
    · simp at h
    · exact absurd (hpre.subset h)
        (writeChangelog_not_mem_midSteps w _ nv w.version nv)

/-- Witness for C8: a healthy write-mode world whose range has no
qualifying commits; the first two effects are the manifest write and the
"Stable version" changelog entry. -/
theorem c8_witness :
    (runMain argsWriteNo { wAll with hasCommits := some false }).effects.take 2 =
      [Effect.writeManifest ⟨1, 3, 0⟩,
       Effect.writeChangelogCustom ⟨1, 3, 0⟩ "Stable version"] ∧
    Effect.writeChangelog ({ wAll with hasCommits := some false } : World).version ⟨1, 3, 0⟩ ∉
      (runMain argsWriteNo { wAll with hasCommits := some false }).effects :=
  c8_stable_version_fallback argsWriteNo { wAll with hasCommits := some false }
    ⟨1, 3, 0⟩ (by decide) (by decide) (by decide) rfl rfl

/-- Claim C9: whenever the `CI` environment variable is set, `is_dry_run`
is false regardless of `--write`, so a CI run that reaches a version bump
enters the mutating write sequence (its first attempted effect is the
manifest write) even when write mode was not requested. -/
theorem c9_ci_disables_dry_run (a : Args) (w : World) (hci : w.ciSet = true) :
    is_dry_run w.ciSet a.flag_write = false ∧
    (∀ nv, gateOk a w = true → version_bump w.version w.bump = some nv →
      (runMain a w).effects.head? = some (Effect.writeManifest nv)) := by
  have hd : is_dry_run w.ciSet a.flag_write = false := by rw [hci]; rfl
  refine ⟨hd, ?_⟩
  intro nv hg hb
  rw [runMain_write a w nv hg hd hb]
  obtain ⟨t, ht⟩ := writeSeq_head w (string_to_bool a.flag_release) w.version nv
  rw [ht]
  rfl

/-- Witness for C9: inside CI, without `--write`, the run still attempts
the manifest write first. -/
theorem c9_witness :
    is_dry_run ({ wAll with ciSet := true } : World).ciSet argsDry.flag_write = false ∧
    (runMain argsDry { wAll with ciSet := true }).effects.head? =
      some (Effect.writeManifest ⟨1, 3, 0⟩) := by
  have h := c9_ci_disables_dry_run argsDry { wAll with ciSet := true } rfl
  exact ⟨h.1, h.2 ⟨1, 3, 0⟩ (by decide) (by decide)⟩

/-- Claim C6: the branch gate.  When the run reaches the gate and
`is_release_branch` fails — because of a branch mismatch or a signaled
pull-request context — the pipeline exits with status 0 having performed no
mutation, reported nothing, and attempted no remote call.  Moreover, with no
pull-request context signaled (`TRAVIS_PULL_REQUEST` unset or `"false"`),
`is_release_branch` returns true exactly when the two branch names are
equal, and any signaled pull-request context forces it to false. -/
theorem c6_branch_gate (a : Args) (w : World) (b : String)
    (hc : configOk a w = true)
    (hb : current_branch w.travisBranch w.headBranch = some b)
    (hrej : is_release_branch w.travisPullRequest b a.flag_branch = false) :
    runMain a w = ⟨0, [], none, none⟩ ∧
    (∀ cur rel : String, is_release_branch none cur rel = true ↔ cur = rel) ∧
    (∀ cur rel : String, is_release_branch (some "false") cur rel = true ↔ cur = rel) ∧
    (∀ pr cur rel : String, pr ≠ "false" → is_release_branch (some pr) cur rel = false) := by
  refine ⟨?_, ?_, ?_, ?_⟩
  · rw [runMain_eq_afterConfig a w hc]
    unfold afterConfig
    rw [hb]
    simp [hrej]
  · intro cur rel
    simp [is_release_branch]
  · intro cur rel
    simp only [is_release_branch]
    rw [if_neg (fun h => h rfl)]
    exact beq_iff_eq
  · intro pr cur rel hne
    simp only [is_release_branch]
    rw [if_pos hne]

/-- Witness for C6: current branch `feature-x` against release branch
`master` exits 0 with no effects; the pure gate facts at sample values. -/
theorem c6_witness :
    runMain argsDry { wAll with travisBranch := some "feature-x" } = ⟨0, [], none, none⟩ ∧
    (is_release_branch none "master" "master" = true ↔ "master" = "master") ∧
    is_release_branch (some "123") "master" "master" = false := by
  have h := c6_branch_gate argsDry { wAll with travisBranch := some "feature-x" }
    "feature-x" (by decide) rfl (by decide)
  exact ⟨h.1, h.2.1 "master" "master", h.2.2.2 "123" "master" "master" (by decide)⟩

/-- Claim C7: the CI barrier.  Inside CI, a non-leader job exits 0 before
any version computation or write step (nothing reported, no effects); a
leader with a failed sibling build exits 1, likewise before any write step;
outside CI the barrier is bypassed entirely — the run's outcome does not
depend on the barrier inputs at all. -/
theorem c7_ci_barrier (a : Args) (w : World) :
    (∀ b, configOk a w = true →
      current_branch w.travisBranch w.headBranch = some b →
      is_release_branch w.travisPullRequest b a.flag_branch = true →
      w.ciSet = true → w.buildFromEnvOk = true →
      ((w.isLeader = false → runMain a w = ⟨0, [], none, none⟩) ∧
       (w.isLeader = true → w.waitOutcome = WaitOutcome.failedBuilds →
         runMain a w = ⟨1, [], none, none⟩))) ∧
    (w.ciSet = false → ∀ bfe l wo,
      runMain a { w with buildFromEnvOk := bfe, isLeader := l, waitOutcome := wo } =
        runMain a w) := by
  constructor
  · intro b hc hbr hacc hci hbe
    constructor
    · intro hl
      rw [runMain_eq_afterConfig a w hc]
      unfold afterConfig
      rw [hbr]
      simp [hacc, hci, hbe, hl]
    · intro hl hwo
      rw [runMain_eq_afterConfig a w hc]
      unfold afterConfig
      rw [hbr]
      simp [hacc, hci, hbe, hl, hwo]
  · intro hci bfe l wo
    simp only [runMain, afterConfig, versionStage, dryReport, writeSeq, writeMid,
      writeTail, writeRemote, current_branch]
    simp [hci]

/-- Witness for C7: a non-leader CI job exits 0, a leader with failed
siblings exits 1, and outside CI the barrier inputs are irrelevant. -/
theorem c7_witness :
    runMain argsDry { wAll with ciSet := true, isLeader := false } = ⟨0, [], none, none⟩ ∧
    runMain argsDry { wAll with ciSet := true, waitOutcome := WaitOutcome.failedBuilds } =
      ⟨1, [], none, none⟩ ∧
    runMain argsDry
        { wAll with buildFromEnvOk := false, isLeader := false,
                    waitOutcome := WaitOutcome.otherError } =
      runMain argsDry wAll := by
  refine ⟨?_, ?_, ?_⟩
  · exact ((c7_ci_barrier argsDry { wAll with ciSet := true, isLeader := false }).1
      "master" (by decide) rfl (by decide) rfl rfl).1 rfl
  · exact ((c7_ci_barrier argsDry
      { wAll with ciSet := true, waitOutcome := WaitOutcome.failedBuilds }).1
      "master" (by decide) rfl (by decide) rfl rfl).2 rfl rfl
  · exact (c7_ci_barrier argsDry wAll).2 rfl false false WaitOutcome.otherError

theorem writeRemote_exit0 (w : World) (tagName msg nvs : String)
    (es : List Effect) (h : (writeRemote w tagName msg nvs es).exitCode = 0) :
    (writeRemote w tagName msg nvs es).effects = es ++ remoteSteps tagName msg := by
  unfold writeRemote at h ⊢
  cases hp : w.pushOk with
  | false => simp [hp] at h
  | true =>
    cases hg : w.githubReleaseOk with
    | false => simp [hp, hg] at h
    | true =>
      cases hct : w.cargoToken with
      | none => simp [hp, hg, hct] at h
      | some ct =>
        cases hpub : w.publishOk with
        | false => simp [hp, hg, hct, hpub] at h
        | true => simp [remoteSteps]

theorem writeTail_exit0 (w : World) (rm : Bool) (nv : Version)
    (es : List Effect) (h : (writeTail w rm nv es).exitCode = 0) :
    (writeTail w rm nv es).effects = es ++ tailSteps w rm nv := by
  cases hp : w.packageOk with
  | false =>
    have hred : writeTail w rm nv es =
        ⟨1, es ++ [Effect.packageCrate], some (version_to_string nv), none⟩ := by
      simp [writeTail, hp]
    rw [hred] at h
    simp at h
  | true =>
    cases hc : w.commitOk with
    | false =>
      have hred : writeTail w rm nv es =
          ⟨1, es ++ [Effect.packageCrate, Effect.commitFiles nv],
           some (version_to_string nv), none⟩ := by
        simp [writeTail, hp, hc]
      rw [hred] at h
      simp at h
    | true =>
      cases hg : w.changelogGen with
      | none =>
        have hred : writeTail w rm nv es =
            ⟨1, es ++ [Effect.packageCrate, Effect.commitFiles nv],
             some (version_to_string nv), none⟩ := by
          simp [writeTail, hp, hc, hg]
        rw [hred] at h
        simp at h
      | some msg =>
        cases ht : w.tagOk with
        | false =>
          have hred : writeTail w rm nv es =
              ⟨1, es ++ [Effect.packageCrate, Effect.commitFiles nv,
                Effect.createTag (tag_name nv) msg],
               some (version_to_string nv), none⟩ := by
            simp [writeTail, hp, hc, hg, ht]
          rw [hred] at h
          simp at h
        | true =>
          cases hrm : rm with
          | false =>
            have hred : writeTail w false nv es =
                ⟨0, es ++ [Effect.packageCrate, Effect.commitFiles nv,
                  Effect.createTag (tag_name nv) msg],
                 some (version_to_string nv), none⟩ := by
              simp [writeTail, hp, hc, hg, ht]
            rw [hred]
            simp [tailSteps, hg]
          | true =>
            have hred : writeTail w true nv es =
                writeRemote w (tag_name nv) msg (version_to_string nv)
                  (es ++ [Effect.packageCrate, Effect.commitFiles nv,
                    Effect.createTag (tag_name nv) msg]) := by
              simp [writeTail, hp, hc, hg, ht]
            rw [hrm] at h
            rw [hred] at h ⊢
            rw [writeRemote_exit0 _ _ _ _ _ h]
            simp [tailSteps, hg]

theorem writeMid_exit0 (w : World) (rm : Bool) (nv : Version)
    (es : List Effect) (h : (writeMid w rm nv es).exitCode = 0) :
    (writeMid w rm nv es).effects = es ++ midSteps w rm nv := by
  cases hrm : rm with
  | false =>
    have hred : writeMid w false nv es = writeTail w false nv es := by
      simp [writeMid]
    rw [hrm] at h
    rw [hred] at h ⊢
    rw [writeTail_exit0 w false nv es h]
    simp [midSteps]
  | true =>
    cases hl : w.lockfileOk with
    | false =>
      have hred : writeMid w true nv es =
          ⟨1, es ++ [Effect.updateLockfile], some (version_to_string nv), none⟩ := by
        simp [writeMid, hl]
      rw [hrm] at h
      rw [hred] at h
      simp at h
    | true =>
      have hred : writeMid w true nv es =
          writeTail w true nv (es ++ [Effect.updateLockfile]) := by
        simp [writeMid, hl]
      rw [hrm] at h
      rw [hred] at h ⊢
      rw [writeTail_exit0 w true nv _ h]
      simp [midSteps]

theorem writeSeq_exit0 (w : World) (rm : Bool) (v nv : Version)
    (h : (writeSeq w rm v nv).exitCode = 0) :
    (writeSeq w rm v nv).effects = stepsFor w rm v nv := by
  cases hm : w.manifestWriteOk with
  | false =>
    have hred : writeSeq w rm v nv =
        ⟨1, [Effect.writeManifest nv], some (version_to_string nv), none⟩ := by
      simp [writeSeq, hm]
    rw [hred] at h
    simp at h
  | true =>
    cases hcom : w.hasCommits with
    | none =>
      have hred : writeSeq w rm v nv =
          ⟨1, [Effect.writeManifest nv], some (version_to_string nv), none⟩ := by
        simp [writeSeq, hm, hcom]
      rw [hred] at h
      simp at h
    | some hcv =>
      cases hcv with
      | true =>
        cases hcw : w.changelogWriteOk with
        | false =>
          have hred : writeSeq w rm v nv =
              ⟨1, [Effect.writeManifest nv, Effect.writeChangelog v nv],
               some (version_to_string nv), none⟩ := by
            simp [writeSeq, hm, hcom, hcw]
          rw [hred] at h
          simp at h
        | true =>
          have hred : writeSeq w rm v nv =
              writeMid w rm nv [Effect.writeManifest nv, Effect.writeChangelog v nv] := by
            simp [writeSeq, hm, hcom, hcw]
          rw [hred] at h ⊢
          rw [writeMid_exit0 w rm nv _ h]
          simp [stepsFor, hcom]
      | false =>
        cases hcw : w.changelogWriteCustomOk with
        | false =>
          have hred : writeSeq w rm v nv =
              ⟨1, [Effect.writeManifest nv,
                Effect.writeChangelogCustom nv "Stable version"],
               some (version_to_string nv), none⟩ := by
            simp [writeSeq, hm, hcom, hcw]
          rw [hred] at h
          simp at h
        | true =>
          have hred : writeSeq w rm v nv =
              writeMid w rm nv
                [Effect.writeManifest nv,
                 Effect.writeChangelogCustom nv "Stable version"] := by
            simp [writeSeq, hm, hcom, hcw]
          rw [hred] at h ⊢
          rw [writeMid_exit0 w rm nv _ h]
          simp [stepsFor, hcom]

/-- Claim C5: the write sequence.  Its attempted steps always form a prefix
of the canonical ordered step list (manifest write, changelog write, lock
refresh, package build, commit, tag, push, remote release, publish), which
contains no duplicates — so no step is reordered or retried, and nothing is
undone.  A run exits 0 exactly by completing the whole list, the pipeline
delegates to this sequence in write mode, and the first failing step
terminates the run with exit status 1 immediately after that step's
attempt, with no later step attempted. -/
theorem c5_write_sequence_order (w : World) (rm : Bool) (v nv : Version) :
    ((writeSeq w rm v nv).effects <+: stepsFor w rm v nv) ∧
    (stepsFor w rm v nv).Nodup ∧
    ((writeSeq w rm v nv).exitCode = 0 →
      (writeSeq w rm v nv).effects = stepsFor w rm v nv) ∧
    (∀ a nv2, gateOk a w = true → is_dry_run w.ciSet a.flag_write = false →
      version_bump w.version w.bump = some nv2 →
      runMain a w = writeSeq w (string_to_bool a.flag_release) w.version nv2) ∧
    (w.manifestWriteOk = false →
      writeSeq w rm v nv =
        ⟨1, [Effect.writeManifest nv], some (version_to_string nv), none⟩) ∧
    (w.manifestWriteOk = true → w.hasCommits = some true →
      w.changelogWriteOk = false →
      writeSeq w rm v nv =
        ⟨1, [Effect.writeManifest nv, Effect.writeChangelog v nv],
         some (version_to_string nv), none⟩) ∧
    (w.manifestWriteOk = true → w.hasCommits = some true →
      w.changelogWriteOk = true → w.lockfileOk = false →
      writeSeq w true v nv =
        ⟨1, [Effect.writeManifest nv, Effect.writeChangelog v nv,
          Effect.updateLockfile], some (version_to_string nv), none⟩) ∧
    (w.manifestWriteOk = true → w.hasCommits = some true →
      w.changelogWriteOk = true → w.lockfileOk = true → w.packageOk = false →
      writeSeq w true v nv =
        ⟨1, [Effect.writeManifest nv, Effect.writeChangelog v nv,
          Effect.updateLockfile, Effect.packageCrate],
         some (version_to_string nv), none⟩) ∧
    (w.manifestWriteOk = true → w.hasCommits = some true →
      w.changelogWriteOk = true → w.lockfileOk = true → w.packageOk = true →
      w.commitOk = false →
      writeSeq w true v nv =
        ⟨1, [Effect.writeManifest nv, Effect.writeChangelog v nv,
          Effect.updateLockfile, Effect.packageCrate, Effect.commitFiles nv],
         some (version_to_string nv), none⟩) ∧
    (∀ m, w.manifestWriteOk = true → w.hasCommits = some true →
      w.changelogWriteOk = true → w.lockfileOk = true → w.packageOk = true →
      w.commitOk = true → w.changelogGen = some m → w.tagOk = false →
      writeSeq w true v nv =
        ⟨1, [Effect.writeManifest nv, Effect.writeChangelog v nv,
          Effect.updateLockfile, Effect.packageCrate, Effect.commitFiles nv,
          Effect.createTag (tag_name nv) m],
         some (version_to_string nv), none⟩) ∧
    (∀ m, w.manifestWriteOk = true → w.hasCommits = some true →
      w.changelogWriteOk = true → w.lockfileOk = true → w.packageOk = true →
      w.commitOk = true → w.changelogGen = some m → w.tagOk = true →
      w.pushOk = false →
      writeSeq w true v nv =
        ⟨1, [Effect.writeManifest nv, Effect.writeChangelog v nv,
          Effect.updateLockfile, Effect.packageCrate, Effect.commitFiles nv,
          Effect.createTag (tag_name nv) m, Effect.push (tag_name nv)],
         some (version_to_string nv), none⟩) ∧
    (∀ m, w.manifestWriteOk = true → w.hasCommits = some true →
      w.changelogWriteOk = true → w.lockfileOk = true → w.packageOk = true →
      w.commitOk = true → w.changelogGen = some m → w.tagOk = true →
      w.pushOk = true → w.githubReleaseOk = false →
      writeSeq w true v nv =
        ⟨1, [Effect.writeManifest nv, Effect.writeChangelog v nv,
          Effect.updateLockfile, Effect.packageCrate, Effect.commitFiles nv,
          Effect.createTag (tag_name nv) m, Effect.push (tag_name nv),
          Effect.githubRelease (tag_name nv) m],
         some (version_to_string nv), none⟩) ∧
    (∀ m ct, w.manifestWriteOk = true → w.hasCommits = some true →
      w.changelogWriteOk = true → w.lockfileOk = true → w.packageOk = true →
      w.commitOk = true → w.changelogGen = some m → w.tagOk = true →
      w.pushOk = true → w.githubReleaseOk = true → w.cargoToken = some ct →
      w.publishOk = false →
      writeSeq w true v nv =
        ⟨1, [Effect.writeManifest nv, Effect.writeChangelog v nv,
          Effect.updateLockfile, Effect.packageCrate, Effect.commitFiles nv,
          Effect.createTag (tag_name nv) m, Effect.push (tag_name nv),
          Effect.githubRelease (tag_name nv) m, Effect.publishCrate],
         some (version_to_string nv), none⟩) := by
  refine ⟨writeSeq_effects_ordered w rm v nv, stepsFor_nodup w rm v nv,
    writeSeq_exit0 w rm v nv, ?_, ?_, ?_, ?_, ?_, ?_, ?_, ?_, ?_, ?_⟩
  · intro a nv2 hg hdry hb
    exact runMain_write a w nv2 hg hdry hb
  · intro h1
    simp [writeSeq, h1]
  · intro h1 h2 h3
    simp [writeSeq, h1, h2, h3]
  · intro h1 h2 h3 h4
    simp [writeSeq, writeMid, h1, h2, h3, h4]
  · intro h1 h2 h3 h4 h5
    simp [writeSeq, writeMid, writeTail, h1, h2, h3, h4, h5]
  · intro h1 h2 h3 h4 h5 h6
    simp [writeSeq, writeMid, writeTail, h1, h2, h3, h4, h5, h6]
  · intro m h1 h2 h3 h4 h5 h6 h7 h8
    simp [writeSeq, writeMid, writeTail, h1, h2, h3, h4, h5, h6, h7, h8]
  · intro m h1 h2 h3 h4 h5 h6 h7 h8 h9
    simp [writeSeq, writeMid, writeTail, writeRemote,
      h1, h2, h3, h4, h5, h6, h7, h8, h9]
  · intro m h1 h2 h3 h4 h5 h6 h7 h8 h9 h10
    simp [writeSeq, writeMid, writeTail, writeRemote,
      h1, h2, h3, h4, h5, h6, h7, h8, h9, h10]
  · intro m ct h1 h2 h3 h4 h5 h6 h7 h8 h9 h10 h11 h12
    simp [writeSeq, writeMid, writeTail, writeRemote,
      h1, h2, h3, h4, h5, h6, h7, h8, h9, h10, h11, h12]

/-- Witness for C5: the healthy release-mode world completes the full step
list, and a world whose lockfile refresh fails stops right after it with
exit status 1. -/
theorem c5_witness :
    (writeSeq wAll true ⟨1, 2, 3⟩ ⟨1, 3, 0⟩).effects =
      stepsFor wAll true ⟨1, 2, 3⟩ ⟨1, 3, 0⟩ ∧
    writeSeq { wAll with lockfileOk := false } true ⟨1, 2, 3⟩ ⟨1, 3, 0⟩ =
      ⟨1, [Effect.writeManifest ⟨1, 3, 0⟩,
        Effect.writeChangelog ⟨1, 2, 3⟩ ⟨1, 3, 0⟩, Effect.updateLockfile],
       some (version_to_string ⟨1, 3, 0⟩), none⟩ := by
  constructor
  · exact (c5_write_sequence_order wAll true ⟨1, 2, 3⟩ ⟨1, 3, 0⟩).2.2.1 (by decide)
  · exact (c5_write_sequence_order { wAll with lockfileOk := false } true
      ⟨1, 2, 3⟩ ⟨1, 3, 0⟩).2.2.2.2.2.2.1 rfl rfl rfl rfl
